import Mathlib

/-
Shallow embedding of the xDrip+ glucose server (Express + Mongoose):
  - models/Glucose.js          : schema validation, pre-save normalization
  - controllers/glucoseController.js : request validators, upload / readings /
    stats handlers (the controller module imports only express-validator and
    the Glucose model)
  - routes/glucose.js          : the /latest route handler (the routes module
    imports only express and five controller exports)

Modelling conventions:
  - JS numbers are modelled as rationals; timestamps as integers
    (milliseconds since the epoch).  Math.round is floor (x + 1/2),
    Math.floor on a quotient is floor division.
  - Numeric request fields are a JSON number or a non-numeric value;
    numeric strings such as "120" are outside the model.  Timestamp request
    fields, when present, are valid dates (invalid ISO strings are not
    representable; no claim exercises them).
  - The store is the list of saved documents in insertion order; Mongo
    find/sort/limit and the aggregation pipeline are evaluated over it.
  - Mongoose collects at most one validation error per schema path; we record
    the failing paths.  Validation runs before the user pre-save hook.
  - The unused metadata.calibration sub-object (never populated by any code
    path and unconstrained) is omitted.
-/

/-- JS Math.round: floor of x + 1/2 (also for negative x). -/
def jsRound (x : ℚ) : ℤ := ⌊x + 1/2⌋

/-- Round to one decimal place: Math.round (x * 10) / 10. -/
def round1 (x : ℚ) : ℚ := (jsRound (x * 10) : ℚ) / 10

/-- metadata sub-document of the Glucose schema (models/Glucose.js). -/
structure Metadata where
  rawValue : Option ℚ := none
  batteryLevel : Option ℤ := none
  signalStrength : Option ℤ := none
  sourceIp : Option String := none
  userAgent : Option String := none
deriving DecidableEq, Repr

/-- A stored glucose document (models/Glucose.js schema paths). -/
structure StoredReading where
  timestamp : ℤ
  glucose : ℚ
  trend : String := "Unknown"
  noise : String := "Clean"
  device : String := "xDrip+"
  userId : Option String := none
  metadata : Metadata := {}
deriving DecidableEq, Repr

/-- The database: saved documents in insertion order. -/
abbrev Store := List StoredReading

def trendValues : List String := ["Rising", "Falling", "Stable", "Unknown"]

def noiseValues : List String := ["Clean", "Light", "Medium", "Heavy"]

/-- Mongoose schema validation on save (models/Glucose.js): the failing schema
paths, in schema order.  glucose has min 0 / max 1000 (the custom finiteness
validator cannot fail on rationals); trend and noise are enums; device has
maxlength 100; metadata.rawValue has min 0; metadata.batteryLevel and
metadata.signalStrength have min 0 and max 100; metadata.sourceIp and
metadata.userAgent have maxlength 45 and 500. -/
def validateDoc (r : StoredReading) : List String :=
  (if r.glucose < 0 ∨ 1000 < r.glucose then ["glucose"] else [])
  ++ (if r.trend ∈ trendValues then [] else ["trend"])
  ++ (if r.noise ∈ noiseValues then [] else ["noise"])
  ++ (if r.device.length ≤ 100 then [] else ["device"])
  ++ (match r.metadata.rawValue with
      | some v => if v < 0 then ["metadata.rawValue"] else []
      | none => [])
  ++ (match r.metadata.batteryLevel with
      | some b => if b < 0 ∨ 100 < b then ["metadata.batteryLevel"] else []
      | none => [])
  ++ (match r.metadata.signalStrength with
      | some s => if s < 0 ∨ 100 < s then ["metadata.signalStrength"] else []
      | none => [])
  ++ (match r.metadata.sourceIp with
      | some s => if s.length ≤ 45 then [] else ["metadata.sourceIp"]
      | none => [])
  ++ (match r.metadata.userAgent with
      | some s => if s.length ≤ 500 then [] else ["metadata.userAgent"]
      | none => [])

/-- User pre-save middleware (models/Glucose.js): clamp a future timestamp to
now, then round glucose to one decimal place when glucose is truthy (0 is
falsy in JS, so 0 is left as is). -/
def preSave (now : ℤ) (r : StoredReading) : StoredReading :=
  let r1 := if now < r.timestamp then { r with timestamp := now } else r
  if r1.glucose ≠ 0 then { r1 with glucose := round1 r1.glucose } else r1

/-- document.save(): mongoose validation runs first (it is the built-in first
pre-save hook); on success the user pre-save middleware normalizes the
document, which is then persisted. -/
def saveDoc (now : ℤ) (r : StoredReading) : Except (List String) StoredReading :=
  if validateDoc r = [] then .ok (preSave now r) else .error (validateDoc r)

/-- A numeric request-body field: a JSON number, or a non-numeric value
(a non-numeric string, null, an object, ...). -/
inductive NumField where
  | num (q : ℚ)
  | nonNumeric
deriving DecidableEq, Repr

/-- A rejected value as echoed in a validation-error entry. -/
inductive JsLit where
  | undef
  | numL (q : ℚ)
  | strL (s : String)
  | otherL
deriving DecidableEq, Repr

/-- One express-validator error entry, as shaped by the controllers:
err.path, err.msg, err.value. -/
structure FieldError where
  field : String
  message : String
  rejectedValue : JsLit
deriving DecidableEq, Repr

/-- Request body of POST /api/xdrip.  batteryLevel, signalStrength and
rawValue are already parsed numbers (parseInt / parseFloat of the numeric
inputs the claims exercise). -/
structure XDripPayload where
  glucose : Option NumField := none
  timestamp : Option ℤ := none
  trend : Option String := none
  noise : Option String := none
  device : Option String := none
  userId : Option String := none
  rawValue : Option ℚ := none
  batteryLevel : Option ℤ := none
  signalStrength : Option ℤ := none
deriving DecidableEq, Repr

def numFieldLit : Option NumField → JsLit
  | none => .undef
  | some (.num q) => .numL q
  | some .nonNumeric => .otherL

def isHexChar (c : Char) : Bool :=
  c.isDigit || (('a' ≤ c) && (c ≤ 'f')) || (('A' ≤ c) && (c ≤ 'F'))

/-- validator.js isMongoId: exactly 24 hexadecimal characters. -/
def isMongoId (s : String) : Bool := s.length == 24 && s.toList.all isHexChar

/-- glucose chain: isNumeric then isFloat with min 0 and max 1000; both
validators run (no bail), so a missing or non-numeric glucose yields both
errors. -/
def glucoseErrors (g : Option NumField) : List FieldError :=
  match g with
  | some (.num q) =>
      if q < 0 ∨ 1000 < q then
        [⟨"glucose", "Glucose must be between 0 and 1000", .numL q⟩]
      else []
  | _ =>
      [⟨"glucose", "Glucose must be a number", numFieldLit g⟩,
       ⟨"glucose", "Glucose must be between 0 and 1000", numFieldLit g⟩]

def trendErrors (t : Option String) : List FieldError :=
  match t with
  | some s =>
      if trendValues.contains s then [] else
        [⟨"trend", "Trend must be one of: Rising, Falling, Stable, Unknown", .strL s⟩]
  | none => []

def noiseErrors (n : Option String) : List FieldError :=
  match n with
  | some s =>
      if noiseValues.contains s then [] else
        [⟨"noise", "Noise must be one of: Clean, Light, Medium, Heavy", .strL s⟩]
  | none => []

/-- device chain: optional isString, trim sanitizer, then isLength max 100
(checked on the trimmed value). -/
def deviceErrors (d : Option String) : List FieldError :=
  match d with
  | some s =>
      if s.trim.length ≤ 100 then [] else
        [⟨"device", "Device name must be a string with max 100 characters", .strL s⟩]
  | none => []

def userIdErrors (u : Option String) : List FieldError :=
  match u with
  | some s =>
      if isMongoId s then [] else
        [⟨"userId", "UserId must be a valid MongoDB ObjectId", .strL s⟩]
  | none => []

/-- validateXDripData (controllers/glucoseController.js): the collected error
entries of all chains, in chain order (glucose, timestamp, trend, noise,
device, userId).  The timestamp chain contributes nothing here because
present timestamps are valid dates in the model. -/
def validateXDripData (p : XDripPayload) : List FieldError :=
  glucoseErrors p.glucose ++ trendErrors p.trend ++ noiseErrors p.noise
    ++ deviceErrors p.device ++ userIdErrors p.userId

/-- Outcome of POST /api/xdrip: 201 created, 400 express-validator error
(with the per-field detail entries), or 400 mongoose validation error (with
the failing schema paths). -/
inductive UploadResult where
  | created (saved : StoredReading)
  | validationError (details : List FieldError)
  | dbValidationError (failedPaths : List String)
deriving DecidableEq, Repr

/-- The document handleXDripUpload builds from a validated payload whose
glucose parsed to g: defaults Unknown / Clean / xDrip+, timestamp defaulting
to now, provenance metadata from the transport, and the optional metadata
fields copied through unchecked. -/
def uploadDoc (now : ℤ) (ip ua : String) (p : XDripPayload) (g : ℚ) :
    StoredReading :=
  { timestamp := p.timestamp.getD now
    glucose := g
    trend := p.trend.getD "Unknown"
    noise := p.noise.getD "Clean"
    device := (p.device.map String.trim).getD "xDrip+"
    userId := p.userId
    metadata :=
      { sourceIp := some ip
        userAgent := some ua
        rawValue := p.rawValue
        batteryLevel := p.batteryLevel
        signalStrength := p.signalStrength } }

/-- handleXDripUpload: on validator errors respond 400 with all entries and
do not touch the store; otherwise build the document and save it; a mongoose
validation failure is a 400 with no insert; success appends the saved
document and responds 201. -/
def handleXDripUpload (now : ℤ) (ip ua : String) (p : XDripPayload)
    (store : Store) : UploadResult × Store :=
  let errs := validateXDripData p
  if errs = [] then
    match p.glucose with
    | some (.num g) =>
        match saveDoc now (uploadDoc now ip ua p g) with
        | .ok saved => (.created saved, store ++ [saved])
        | .error paths => (.dbValidationError paths, store)
    | _ => (.validationError errs, store) -- dead: empty errs forces a number
  else (.validationError errs, store)

/-- getTimeAgo (controllers/glucoseController.js): relative-age text from the
difference now - timestamp in milliseconds. -/
def getTimeAgo (now ts : ℤ) : String :=
  let minutes := Int.fdiv (now - ts) 60000
  if minutes < 1 then "Just now"
  else if minutes < 60 then
    toString minutes ++ " minute" ++ (if minutes ≠ 1 then "s" else "") ++ " ago"
  else
    let hours := Int.fdiv minutes 60
    if hours < 24 then
      toString hours ++ " hour" ++ (if hours ≠ 1 then "s" else "") ++ " ago"
    else
      let days := Int.fdiv hours 24
      toString days ++ " day" ++ (if days ≠ 1 then "s" else "") ++ " ago"

/-- mg/dL to mmol/L as computed per response: Math.round (g / 18.018 * 10) / 10. -/
def mgdlToMmol (g : ℚ) : ℚ := (jsRound (g / (18018/1000) * 10) : ℚ) / 10

/-- One reading as shaped in GET responses (data array items): stored fields
plus the derived glucoseMmol, timeAgo and range flags. -/
structure ReadingEntry where
  glucose : ℚ
  glucoseMmol : ℚ
  timestamp : ℤ
  trend : String
  noise : String
  device : String
  timeAgo : String
  isHigh : Bool
  isLow : Bool
  isInRange : Bool
deriving DecidableEq, Repr

def entryOf (now : ℤ) (r : StoredReading) : ReadingEntry :=
  { glucose := r.glucose
    glucoseMmol := mgdlToMmol r.glucose
    timestamp := r.timestamp
    trend := r.trend
    noise := r.noise
    device := r.device
    timeAgo := getTimeAgo now r.timestamp
    isHigh := decide (180 < r.glucose)
    isLow := decide (r.glucose < 70)
    isInRange := decide (70 ≤ r.glucose ∧ r.glucose ≤ 180) }

/-- Query string of GET /api/readings (the field named untilT is the until
query parameter). -/
structure ReadingsQuery where
  limit : Option ℤ := none
  userId : Option String := none
  since : Option ℤ := none
  untilT : Option ℤ := none
deriving DecidableEq, Repr

/-- validateReadingsQuery: optional limit must be an integer in 1..100,
optional userId a Mongo id; since and until are valid dates by construction
in the model. -/
def validateReadingsQuery (q : ReadingsQuery) : List FieldError :=
  (match q.limit with
   | some n =>
       if 1 ≤ n ∧ n ≤ 100 then [] else
         [⟨"limit", "Limit must be between 1 and 100", .numL (n : ℚ)⟩]
   | none => [])
  ++ (match q.userId with
      | some s =>
          if isMongoId s then [] else
            [⟨"userId", "UserId must be a valid MongoDB ObjectId", .strL s⟩]
      | none => [])

/-- The Mongo find filter of getGlucoseReadings: conjunction of the optional
userId equality and the optional timestamp bounds. -/
def matchesQuery (q : ReadingsQuery) (r : StoredReading) : Bool :=
  (match q.userId with | some u => r.userId == some u | none => true)
  && (match q.since with | some t => decide (t ≤ r.timestamp) | none => true)
  && (match q.untilT with | some t => decide (r.timestamp ≤ t) | none => true)

/-- Stable insertion into a timestamp-descending list (an earlier-inserted
document stays ahead of later ones with the same timestamp). -/
def insertDesc (r : StoredReading) : List StoredReading → List StoredReading
  | [] => [r]
  | x :: xs =>
      if x.timestamp ≤ r.timestamp then r :: x :: xs else x :: insertDesc r xs

/-- sort by timestamp descending, stable in insertion order. -/
def sortByTimestampDesc (l : List StoredReading) : List StoredReading :=
  l.foldr insertDesc []

def qSum (l : List ℚ) : ℚ := l.foldl (· + ·) 0

def listMin : List ℚ → ℚ
  | [] => 0
  | x :: xs => xs.foldl min x

def listMax : List ℚ → ℚ
  | [] => 0
  | x :: xs => xs.foldl max x

/-- stats block of the GET /api/readings response; the keys set only for a
non-empty page are optional. -/
structure PageStats where
  count : ℕ
  latest : Option ℤ := none
  oldest : Option ℤ := none
  average : Option ℚ := none
  min : Option ℚ := none
  max : Option ℚ := none
  rangeLow : Option ℕ := none
  rangeNormal : Option ℕ := none
  rangeHigh : Option ℕ := none
deriving DecidableEq, Repr

/-- Statistics computed by getGlucoseReadings over the returned page:
count, endpoints of the page, and for a non-empty page the rounded average,
min, max and the three range-bucket counts. -/
def pageStatsOf (page : List StoredReading) : PageStats :=
  let base : PageStats :=
    { count := page.length
      latest := page.head?.map (fun r => r.timestamp)
      oldest := page.getLast?.map (fun r => r.timestamp) }
  match page with
  | [] => base
  | _ =>
    let gs := page.map (fun r => r.glucose)
    { base with
      average := some ((jsRound (qSum gs / (gs.length : ℚ) * 10) : ℚ) / 10)
      min := some (listMin gs)
      max := some (listMax gs)
      rangeLow := some ((gs.filter (fun g => decide (g < 70))).length)
      rangeNormal := some ((gs.filter (fun g => decide (70 ≤ g ∧ g ≤ 180))).length)
      rangeHigh := some ((gs.filter (fun g => decide (180 < g))).length) }

inductive ReadingsResult where
  | ok (data : List ReadingEntry) (stats : PageStats)
  | validationError (details : List FieldError)
deriving DecidableEq, Repr

/-- Effective page size: parseInt of the limit parameter, 10 when absent. -/
def effLimit (q : ReadingsQuery) : ℕ := (q.limit.getD 10).toNat

/-- The page getGlucoseReadings serves: filter, sort timestamp-descending,
then take the effective limit. -/
def pageOf (q : ReadingsQuery) (store : Store) : List StoredReading :=
  (sortByTimestampDesc (store.filter (matchesQuery q))).take (effLimit q)

/-- getGlucoseReadings: 400 with all entries on query-validation errors;
otherwise 200 with the shaped page and statistics computed over that page. -/
def getGlucoseReadings (now : ℤ) (q : ReadingsQuery) (store : Store) :
    ReadingsResult :=
  if validateReadingsQuery q = [] then
    .ok ((pageOf q store).map (entryOf now)) (pageStatsOf (pageOf q store))
  else .validationError (validateReadingsQuery q)

/-- Names bound at module scope in controllers/glucoseController.js: its
two imported bindings (body, validationResult, query from express-validator
and the Glucose model default) and its own top-level declarations.
mongoose is NOT among them, although getGlucoseStats references it. -/
def glucoseControllerModuleNames : List String :=
  ["body", "validationResult", "query", "Glucose", "getTimeAgo",
   "validateXDripData", "validateReadingsQuery", "handleXDripUpload",
   "getGlucoseReadings", "getGlucoseStats"]

/-- Names bound at module scope in routes/glucose.js: the default express
binding, the five named controller bindings and the router constant.  Neither
Glucose nor getTimeAgo is among them, although the /latest handler references
both. -/
def routesGlucoseModuleNames : List String :=
  ["express", "handleXDripUpload", "getGlucoseReadings", "getGlucoseStats",
   "validateXDripData", "validateReadingsQuery", "router"]

/-- The $match stage of the stats aggregation: optional userId equality and
timestamp at or after since. -/
def statsWindowMatch (userId : Option String) (since : ℤ) (store : Store) :
    List StoredReading :=
  store.filter (fun r =>
    (match userId with | some u => r.userId == some u | none => true)
    && decide (since ≤ r.timestamp))

/-- The single row the $group stage emits over a non-empty input. -/
structure AggRow where
  count : ℕ
  averageGlucose : ℚ
  minGlucose : ℚ
  maxGlucose : ℚ
  lowReadings : ℕ
  normalReadings : ℕ
  highReadings : ℕ
deriving DecidableEq, Repr

/-- stats[0] fallback of getGlucoseStats when the aggregation emits no row. -/
def zeroAggRow : AggRow :=
  { count := 0, averageGlucose := 0, minGlucose := 0, maxGlucose := 0
    lowReadings := 0, normalReadings := 0, highReadings := 0 }

/-- The aggregation pipeline: $group over the matched set emits one row with
count, exact average, min, max and the three conditional-sum buckets; over an
empty input it emits no row. -/
def aggregateStats (ms : List StoredReading) : Option AggRow :=
  match ms with
  | [] => none
  | _ =>
    let gs := ms.map (fun r => r.glucose)
    some
      { count := ms.length
        averageGlucose := qSum gs / (gs.length : ℚ)
        minGlucose := listMin gs
        maxGlucose := listMax gs
        lowReadings := (gs.filter (fun g => decide (g < 70))).length
        normalReadings := (gs.filter (fun g => decide (70 ≤ g ∧ g ≤ 180))).length
        highReadings := (gs.filter (fun g => decide (180 < g))).length }

/-- Response data of GET /api/stats: the (defaulted) aggregation row with the
average rounded to one decimal, the three independently rounded time-in-range
percentages, and the period hours. -/
structure StatsSummary where
  count : ℕ
  averageGlucose : ℚ
  minGlucose : ℚ
  maxGlucose : ℚ
  lowReadings : ℕ
  normalReadings : ℕ
  highReadings : ℕ
  tirLow : ℤ
  tirNormal : ℤ
  tirHigh : ℤ
  periodHours : ℤ
deriving DecidableEq, Repr

inductive StatsResult where
  | ok (summary : StatsSummary)
  | serverError (message : String)
deriving DecidableEq, Repr

def msPerHour : ℤ := 3600000

/-- The response data getGlucoseStats shapes from the (defaulted) aggregation
row: the average rounded to one decimal, the counts copied through, each
percentage rounded independently and guarded by count > 0, and the period. -/
def statsSummaryOf (hours : ℤ) (result : AggRow) : StatsSummary :=
  { count := result.count
    averageGlucose := (jsRound (result.averageGlucose * 10) : ℚ) / 10
    minGlucose := result.minGlucose
    maxGlucose := result.maxGlucose
    lowReadings := result.lowReadings
    normalReadings := result.normalReadings
    highReadings := result.highReadings
    tirLow := if 0 < result.count then
        jsRound ((result.lowReadings : ℚ) / (result.count : ℚ) * 100) else 0
    tirNormal := if 0 < result.count then
        jsRound ((result.normalReadings : ℚ) / (result.count : ℚ) * 100) else 0
    tirHigh := if 0 < result.count then
        jsRound ((result.highReadings : ℚ) / (result.count : ℚ) * 100) else 0
    periodHours := hours }

/-- getGlucoseStats: since is now minus hours.  When a userId path parameter
is present, building the $match stage evaluates mongoose.Types.ObjectId, but
the controller module never imports mongoose: the ReferenceError is caught by
the catch-all and answered with a 500.  Otherwise the aggregation runs and
the summary is shaped from its (defaulted) row. -/
def getGlucoseStats (now : ℤ) (userId : Option String) (hours : ℤ)
    (store : Store) : StatsResult :=
  let since := now - hours * msPerHour
  if userId.isSome ∧ ¬ glucoseControllerModuleNames.contains "mongoose" then
    .serverError "ReferenceError: mongoose is not defined"
  else
    .ok (statsSummaryOf hours
      ((aggregateStats (statsWindowMatch userId since store)).getD zeroAggRow))

inductive LatestResult where
  | ok (entry : ReadingEntry)
  | notFound
  | serverError (message : String)
deriving DecidableEq, Repr

/-- findOne with sort timestamp descending: the greatest-timestamp document
matching the optional userId filter, if any. -/
def findOneLatest (userId : Option String) (store : Store) :
    Option StoredReading :=
  (sortByTimestampDesc (store.filter (fun r =>
    match userId with | some u => r.userId == some u | none => true))).head?

/-- The GET /api/latest handler in routes/glucose.js.  Its body reads the
name Glucose, which the routes module never binds, so every request throws a
ReferenceError that the catch-all answers with a 500.  Were Glucose bound,
an empty result would be a 404, and shaping a found reading would in turn
read the unbound name getTimeAgo. -/
def latestHandler (now : ℤ) (userId : Option String) (store : Store) :
    LatestResult :=
  if ¬ routesGlucoseModuleNames.contains "Glucose" then
    .serverError "ReferenceError: Glucose is not defined"
  else
    match findOneLatest userId store with
    | none => .notFound
    | some r =>
        if ¬ routesGlucoseModuleNames.contains "getTimeAgo" then
          .serverError "ReferenceError: getTimeAgo is not defined"
        else .ok (entryOf now r)

/-- The all-zero stats summary for a given period. -/
def zeroSummary (hours : ℤ) : StatsSummary :=
  { count := 0, averageGlucose := 0, minGlucose := 0, maxGlucose := 0
    lowReadings := 0, normalReadings := 0, highReadings := 0
    tirLow := 0, tirNormal := 0, tirHigh := 0, periodHours := hours }

/-- A stored reading with a given value (remaining fields at their defaults). -/
def mkReading (g : ℚ) : StoredReading := { timestamp := 0, glucose := g }

/-- An in-range upload carrying an out-of-range battery level. -/
def c1Payload : XDripPayload :=
  { glucose := some (.num 120), batteryLevel := some 150 }

/-- An in-range upload carrying an out-of-range signal strength. -/
def c1PayloadSignal : XDripPayload :=
  { glucose := some (.num 120), signalStrength := some 150 }

/-- A schema-valid document dated in the future relative to save time 50. -/
def c4Doc : StoredReading := { timestamp := 100, glucose := 120 }

/-- An upload whose value 1000.1 exceeds the allowed range. -/
def c5Payload : XDripPayload := { glucose := some (.num (10001/10)) }

/-- Three readings with values 50, 100 and 190 inside one lookback window. -/
def c9Store : Store :=
  [{ timestamp := 1000, glucose := 50 },
   { timestamp := 2000, glucose := 100 },
   { timestamp := 3000, glucose := 190 }]

/-- The summary getGlucoseStats serves for c9Store over 24 hours at time 0:
average 340/3 rounds to 113.3 and each bucket holds one of three readings,
so each percentage is round (100/3) = 33. -/
def c9Summary : StatsSummary :=
  { count := 3, averageGlucose := 1133/10, minGlucose := 50, maxGlucose := 190
    lowReadings := 1, normalReadings := 1, highReadings := 1
    tirLow := 33, tirNormal := 33, tirHigh := 33, periodHours := 24 }

/-- A readings query asking for at most two items. -/
def c10Query : ReadingsQuery := { limit := some 2 }

/-- C2: the latest-reading endpoint should answer 200 with the
greatest-timestamp matching reading, or 404 when none matches, and never a
server error.  In the code every request to it is answered with a 500: the
handler in routes/glucose.js reads the name Glucose, which that module never
imports, so the awaited findOne throws a ReferenceError that the catch-all
turns into the 500 response. -/
theorem latestHandler_always_server_error
    (now : ℤ) (userId : Option String) (store : Store) :
    latestHandler now userId store
      = .serverError "ReferenceError: Glucose is not defined" := by
  rfl

/-- C3: a statistics request that supplies an ownerId path parameter should
be a 200 with the StatsSummary; in the code it is always a 500, because
getGlucoseStats evaluates mongoose.Types.ObjectId(userId) while the
controller module never imports mongoose, and the resulting ReferenceError is
caught and answered as an internal server error. -/
theorem getGlucoseStats_with_owner_always_server_error
    (now : ℤ) (uid : String) (hours : ℤ) (store : Store) :
    getGlucoseStats now (some uid) hours store
      = .serverError "ReferenceError: mongoose is not defined" := by
  rfl

/-- A payload that passes the request validators carries a numeric glucose
(the glucose chain errors otherwise). -/
theorem glucose_num_of_valid (p : XDripPayload)
    (h : validateXDripData p = []) :
    ∃ g, p.glucose = some (NumField.num g) := by
  cases hg : p.glucose with
  | none => simp [validateXDripData, glucoseErrors, hg] at h
  | some nf =>
    cases nf with
    | num g => exact ⟨g, rfl⟩
    | nonNumeric => simp [validateXDripData, glucoseErrors, hg] at h

/-- An out-of-range battery level makes schema validation fail on the
metadata.batteryLevel path. -/
theorem battery_path_mem_validateDoc (r : StoredReading) (b : ℤ)
    (hb : r.metadata.batteryLevel = some b) (hout : b < 0 ∨ 100 < b) :
    "metadata.batteryLevel" ∈ validateDoc r := by
  unfold validateDoc
  rw [hb]
  simp [List.mem_append, hout]

/-- An out-of-range signal strength makes schema validation fail on the
metadata.signalStrength path. -/
theorem signal_path_mem_validateDoc (r : StoredReading) (g : ℤ)
    (hs : r.metadata.signalStrength = some g) (hout : g < 0 ∨ 100 < g) :
    "metadata.signalStrength" ∈ validateDoc r := by
  unfold validateDoc
  rw [hs]
  simp [List.mem_append, hout]

/-- C1 counterexample: the claim says an upload whose batteryLevel or
signalStrength is outside 0..100 is still inserted with the field silently
dropped.  At glucose 120 with batteryLevel 150 (and likewise with
signalStrength 150) the code instead fails mongoose validation on the
offending metadata path and inserts nothing: the response is the 400
database-validation error and the store is unchanged. -/
theorem upload_metadata_out_of_range_rejected_cex :
    handleXDripUpload 0 "203.0.113.5" "xDrip-test" c1Payload []
      = (.dbValidationError ["metadata.batteryLevel"], []) ∧
    handleXDripUpload 0 "203.0.113.5" "xDrip-test" c1PayloadSignal []
      = (.dbValidationError ["metadata.signalStrength"], []) := by
  constructor
  · decide
  · decide

/-- C1 amended: a present batteryLevel or signalStrength outside 0..100 on a
payload that passes the request validators makes the save fail mongoose
validation; the response is the 400 database-validation error whose paths
name every such out-of-range metadata field, and no reading is inserted (the
metadata field is not dropped). -/
theorem upload_rejects_out_of_range_metadata
    (now : ℤ) (ip ua : String) (p : XDripPayload) (store : Store)
    (hval : validateXDripData p = [])
    (hout : (∃ b, p.batteryLevel = some b ∧ (b < 0 ∨ 100 < b)) ∨
            (∃ g, p.signalStrength = some g ∧ (g < 0 ∨ 100 < g))) :
    (handleXDripUpload now ip ua p store).2 = store ∧
    ∃ paths, (handleXDripUpload now ip ua p store).1
        = UploadResult.dbValidationError paths
      ∧ (∀ b, p.batteryLevel = some b → b < 0 ∨ 100 < b →
          "metadata.batteryLevel" ∈ paths)
      ∧ (∀ g, p.signalStrength = some g → g < 0 ∨ 100 < g →
          "metadata.signalStrength" ∈ paths) := by
  obtain ⟨g, hg⟩ := glucose_num_of_valid p hval
  have hne : validateDoc (uploadDoc now ip ua p g) ≠ [] := by
    rcases hout with ⟨b, hb, hbo⟩ | ⟨sg, hsg, hso⟩
    · exact List.ne_nil_of_mem
        (battery_path_mem_validateDoc _ b (by simp [uploadDoc, hb]) hbo)
    · exact List.ne_nil_of_mem
        (signal_path_mem_validateDoc _ sg (by simp [uploadDoc, hsg]) hso)
  have hsave : saveDoc now (uploadDoc now ip ua p g)
      = .error (validateDoc (uploadDoc now ip ua p g)) := by
    unfold saveDoc
    rw [if_neg hne]
  have hrun : handleXDripUpload now ip ua p store
      = (.dbValidationError (validateDoc (uploadDoc now ip ua p g)), store) := by
    simp [handleXDripUpload, hval, hg, hsave]
  rw [hrun]
  refine ⟨rfl, validateDoc (uploadDoc now ip ua p g), rfl, ?_, ?_⟩
  · intro b hb hbo
    exact battery_path_mem_validateDoc _ b (by simp [uploadDoc, hb]) hbo
  · intro sg hsg hso
    exact signal_path_mem_validateDoc _ sg (by simp [uploadDoc, hsg]) hso

/-- C1 witness: the amended statement at the concrete rejected uploads, one
with the battery level out of range and one with the signal strength out of
range. -/
theorem upload_rejects_out_of_range_metadata_witness :
    (validateXDripData c1Payload = [] ∧
     (∃ b, c1Payload.batteryLevel = some b ∧ (b < 0 ∨ 100 < b)) ∧
     (handleXDripUpload 0 "203.0.113.5" "xDrip-test" c1Payload []).2 = [] ∧
     (∃ paths, (handleXDripUpload 0 "203.0.113.5" "xDrip-test" c1Payload []).1
         = UploadResult.dbValidationError paths
       ∧ "metadata.batteryLevel" ∈ paths)) ∧
    (validateXDripData c1PayloadSignal = [] ∧
     (∃ g, c1PayloadSignal.signalStrength = some g ∧ (g < 0 ∨ 100 < g)) ∧
     (handleXDripUpload 0 "203.0.113.5" "xDrip-test" c1PayloadSignal []).2
         = [] ∧
     (∃ paths,
        (handleXDripUpload 0 "203.0.113.5" "xDrip-test" c1PayloadSignal []).1
         = UploadResult.dbValidationError paths
       ∧ "metadata.signalStrength" ∈ paths)) := by
  refine ⟨⟨by decide, ⟨150, rfl, by decide⟩, ?_, ?_⟩,
          ⟨by decide, ⟨150, rfl, by decide⟩, ?_, ?_⟩⟩
  · exact (upload_rejects_out_of_range_metadata 0 "203.0.113.5" "xDrip-test"
      c1Payload [] (by decide) (Or.inl ⟨150, rfl, by decide⟩)).1
  · obtain ⟨paths, heq, hb, hs⟩ :=
      (upload_rejects_out_of_range_metadata 0 "203.0.113.5" "xDrip-test"
        c1Payload [] (by decide) (Or.inl ⟨150, rfl, by decide⟩)).2
    exact ⟨paths, heq, hb 150 rfl (by decide)⟩
  · exact (upload_rejects_out_of_range_metadata 0 "203.0.113.5" "xDrip-test"
      c1PayloadSignal [] (by decide) (Or.inr ⟨150, rfl, by decide⟩)).1
  · obtain ⟨paths, heq, hb, hs⟩ :=
      (upload_rejects_out_of_range_metadata 0 "203.0.113.5" "xDrip-test"
        c1PayloadSignal [] (by decide) (Or.inr ⟨150, rfl, by decide⟩)).2
    exact ⟨paths, heq, hs 150 rfl (by decide)⟩

/-- C4: saving never rejects a future-dated document; the pre-save hook
clamps a timestamp strictly after now to now and leaves any other timestamp
unchanged. -/
theorem save_clamps_future_timestamp (now : ℤ) (r : StoredReading) :
    (validateDoc r = [] → saveDoc now r = .ok (preSave now r)) ∧
    (∀ s, saveDoc now r = Except.ok s →
      (now < r.timestamp → s.timestamp = now) ∧
      (r.timestamp ≤ now → s.timestamp = r.timestamp)) := by
  constructor
  · intro h
    unfold saveDoc
    rw [if_pos h]
  · intro s hs
    have hps : s = preSave now r := by
      unfold saveDoc at hs
      by_cases h : validateDoc r = []
      · rw [if_pos h] at hs
        exact (Except.ok.inj hs).symm
      · rw [if_neg h] at hs
        cases hs
    subst hps
    constructor
    · intro hfut
      unfold preSave
      rw [if_pos hfut]
      by_cases hg : r.glucose ≠ 0 <;> simp [hg]
    · intro hle
      unfold preSave
      rw [if_neg (by omega : ¬ now < r.timestamp)]
      by_cases hg : r.glucose ≠ 0 <;> simp [hg]

/-- C4 witness: saving the valid document dated 100 at time 50 succeeds and
stores timestamp 50. -/
theorem save_clamps_future_timestamp_witness :
    validateDoc c4Doc = [] ∧ saveDoc 50 c4Doc = .ok (preSave 50 c4Doc) ∧
      (preSave 50 c4Doc).timestamp = 50 :=
  ⟨by decide,
   (save_clamps_future_timestamp 50 c4Doc).1 (by decide),
   ((save_clamps_future_timestamp 50 c4Doc).2 (preSave 50 c4Doc)
       ((save_clamps_future_timestamp 50 c4Doc).1 (by decide))).1 (by decide)⟩

/-- C5: an upload whose glucose is missing, non-numeric or outside 0..1000 is
answered with the validation-error response carrying every collected entry,
among them one naming the field glucose, and the store is untouched; any
invalid trend in the same payload is reported in the same response. -/
theorem upload_invalid_value_rejected
    (now : ℤ) (ip ua : String) (p : XDripPayload) (store : Store)
    (hbad : p.glucose = none ∨ p.glucose = some NumField.nonNumeric ∨
      ∃ q, p.glucose = some (NumField.num q) ∧ (q < 0 ∨ 1000 < q)) :
    handleXDripUpload now ip ua p store
        = (.validationError (validateXDripData p), store) ∧
    (∃ e ∈ validateXDripData p, e.field = "glucose") ∧
    (∀ s, p.trend = some s → trendValues.contains s = false →
      ∃ e ∈ validateXDripData p, e.field = "trend") := by
  have hge : ∃ e ∈ glucoseErrors p.glucose, e.field = "glucose" := by
    rcases hbad with h | h | ⟨q, hq, hr⟩
    · exact ⟨⟨"glucose", "Glucose must be a number", numFieldLit p.glucose⟩,
        by simp [glucoseErrors, h], rfl⟩
    · exact ⟨⟨"glucose", "Glucose must be a number", numFieldLit p.glucose⟩,
        by simp [glucoseErrors, h], rfl⟩
    · exact ⟨⟨"glucose", "Glucose must be between 0 and 1000", .numL q⟩,
        by simp [glucoseErrors, hq, hr], rfl⟩
  obtain ⟨eg, hegmem, hegf⟩ := hge
  have hmem : eg ∈ validateXDripData p := by
    simp only [validateXDripData, List.mem_append]
    tauto
  have hne : validateXDripData p ≠ [] := List.ne_nil_of_mem hmem
  have hrun : handleXDripUpload now ip ua p store
      = (.validationError (validateXDripData p), store) := by
    simp only [handleXDripUpload]
    rw [if_neg hne]
  refine ⟨hrun, ⟨eg, hmem, hegf⟩, ?_⟩
  intro s hs hnc
  refine ⟨⟨"trend", "Trend must be one of: Rising, Falling, Stable, Unknown",
    .strL s⟩, ?_, rfl⟩
  have ht : (⟨"trend", "Trend must be one of: Rising, Falling, Stable, Unknown",
      .strL s⟩ : FieldError) ∈ trendErrors p.trend := by
    simp [trendErrors, hs, hnc]
    simpa using hnc
  simp only [validateXDripData, List.mem_append]
  tauto

/-- C5 witness: value 1000.1 is rejected with the validation-error response
and no insert. -/
theorem upload_invalid_value_rejected_witness :
    (∃ q, c5Payload.glucose = some (NumField.num q) ∧ (q < 0 ∨ 1000 < q)) ∧
    handleXDripUpload 0 "203.0.113.9" "xDrip-w" c5Payload []
      = (.validationError (validateXDripData c5Payload), []) :=
  ⟨⟨10001/10, rfl, by norm_num⟩,
   (upload_invalid_value_rejected 0 "203.0.113.9" "xDrip-w" c5Payload []
     (Or.inr (Or.inr ⟨10001/10, rfl, by norm_num⟩))).1⟩

/-- Characterization of Math.round used to evaluate concrete roundings. -/
theorem jsRound_eq_of (x : ℚ) (n : ℤ) (h1 : (n:ℚ) ≤ x + 1/2)
    (h2 : x + 1/2 < n + 1) : jsRound x = n := by
  unfold jsRound
  rw [Int.floor_eq_iff]
  · exact ⟨h1, by exact_mod_cast h2⟩

theorem round1_zero : round1 0 = 0 := by
  unfold round1
  rw [jsRound_eq_of (0 * 10) 0 (by norm_num) (by norm_num)]
  norm_num

/-- C6: ingesting a value in 0..1000 stores it rounded to one decimal place,
and reading it back returns exactly the stored, rounded value. -/
theorem ingest_roundtrips_value
    (now : ℤ) (ip ua : String) (v : ℚ)
    (h0 : 0 ≤ v) (h1 : v ≤ 1000)
    (hip : ip.length ≤ 45) (hua : ua.length ≤ 500) :
    ∃ saved,
      handleXDripUpload now ip ua { glucose := some (.num v) } []
          = (.created saved, [saved]) ∧
      saved.glucose = round1 v ∧
      getGlucoseReadings now {} [saved]
          = .ok [entryOf now saved] (pageStatsOf [saved]) ∧
      (entryOf now saved).glucose = round1 v := by
  have hcond : ¬(v < 0 ∨ 1000 < v) := by
    push_neg
    exact ⟨h0, h1⟩
  have hval : validateXDripData { glucose := some (.num v) } = [] := by
    simp [validateXDripData, glucoseErrors, trendErrors, noiseErrors,
      deviceErrors, userIdErrors, hcond]
  have hdoc : validateDoc
      (uploadDoc now ip ua { glucose := some (.num v) } v) = [] := by
    simp [validateDoc, uploadDoc, hcond, hip, hua, trendValues, noiseValues]
    decide
  have hsave : saveDoc now (uploadDoc now ip ua { glucose := some (.num v) } v)
      = .ok (preSave now (uploadDoc now ip ua { glucose := some (.num v) } v)) := by
    unfold saveDoc
    rw [if_pos hdoc]
  refine ⟨preSave now (uploadDoc now ip ua { glucose := some (.num v) } v),
    ?_, ?_, ?_, ?_⟩
  · simp [handleXDripUpload, hval, hsave]
  · show (preSave now (uploadDoc now ip ua { glucose := some (.num v) } v)).glucose
        = round1 v
    unfold preSave uploadDoc
    simp only [Option.getD_none, lt_irrefl, if_false]
    by_cases hv : v = 0
    · simp [hv, round1_zero]
    · simp [hv]
  · rfl
  · show (preSave now (uploadDoc now ip ua { glucose := some (.num v) } v)).glucose
        = round1 v
    unfold preSave uploadDoc
    simp only [Option.getD_none, lt_irrefl, if_false]
    by_cases hv : v = 0
    · simp [hv, round1_zero]
    · simp [hv]

/-- C6 witness: value 123.45 round-trips as 123.5. -/
theorem ingest_roundtrips_value_witness :
    (0:ℚ) ≤ 2469/20 ∧ (2469/20:ℚ) ≤ 1000 ∧
    "198.51.100.7".length ≤ 45 ∧ "xDrip-js".length ≤ 500 ∧
    round1 (2469/20) = 247/2 ∧
    ∃ saved,
      handleXDripUpload 7 "198.51.100.7" "xDrip-js"
          { glucose := some (.num (2469/20)) } [] = (.created saved, [saved]) ∧
      saved.glucose = round1 (2469/20) ∧
      getGlucoseReadings 7 {} [saved]
          = .ok [entryOf 7 saved] (pageStatsOf [saved]) ∧
      (entryOf 7 saved).glucose = round1 (2469/20) :=
  ⟨by norm_num, by norm_num, by decide, by decide,
   by
     unfold round1
     rw [jsRound_eq_of (2469/20 * 10) 1235 (by norm_num) (by norm_num)]
     norm_num,
   ingest_roundtrips_value 7 "198.51.100.7" "xDrip-js" (2469/20)
     (by norm_num) (by norm_num) (by decide) (by decide)⟩

/-- C7: the derived flags satisfy isLow iff value < 70, isHigh iff
value > 180 and isInRange iff 70 <= value <= 180, with the boundary and
near-boundary values behaving as the claim lists. -/
theorem range_flags (now : ℤ) (r : StoredReading) :
    ((entryOf now r).isLow = true ↔ r.glucose < 70) ∧
    ((entryOf now r).isHigh = true ↔ 180 < r.glucose) ∧
    ((entryOf now r).isInRange = true ↔ (70 ≤ r.glucose ∧ r.glucose ≤ 180)) ∧
    (entryOf 0 (mkReading 70)).isInRange = true ∧
    (entryOf 0 (mkReading 70)).isLow = false ∧
    (entryOf 0 (mkReading 180)).isInRange = true ∧
    (entryOf 0 (mkReading 180)).isHigh = false ∧
    (entryOf 0 (mkReading (699/10))).isLow = true ∧
    (entryOf 0 (mkReading (1801/10))).isHigh = true := by
  refine ⟨?_, ?_, ?_, ?_, ?_, ?_, ?_, ?_, ?_⟩
  · simp [entryOf]
  · simp [entryOf]
  · simp [entryOf]
  · norm_num [entryOf, mkReading]
  · norm_num [entryOf, mkReading]
  · norm_num [entryOf, mkReading]
  · norm_num [entryOf, mkReading]
  · norm_num [entryOf, mkReading]
  · norm_num [entryOf, mkReading]

/-- C8: whenever the stats window matches no reading, the served summary is
all-zero (average, min, max, buckets and percentages all 0) with no division
performed; a request without ownerId actually serves it. -/
theorem stats_empty_window_all_zero
    (now hours : ℤ) (store : Store) (uid : Option String) :
    (statsWindowMatch none (now - hours * msPerHour) store = [] →
      getGlucoseStats now none hours store = .ok (zeroSummary hours)) ∧
    (∀ summary, getGlucoseStats now uid hours store = .ok summary →
      statsWindowMatch uid (now - hours * msPerHour) store = [] →
      summary = zeroSummary hours) := by
  have hfirst : statsWindowMatch none (now - hours * msPerHour) store = [] →
      getGlucoseStats now none hours store = .ok (zeroSummary hours) := by
    intro hempty
    simp [getGlucoseStats, hempty, aggregateStats, zeroAggRow, zeroSummary,
      statsSummaryOf]
    norm_num [jsRound]
  refine ⟨hfirst, ?_⟩
  intro summary hok hempty
  cases uid with
  | none =>
      rw [hfirst hempty] at hok
      exact (StatsResult.ok.inj hok).symm
  | some u =>
      have hse : getGlucoseStats now (some u) hours store
          = .serverError "ReferenceError: mongoose is not defined" := rfl
      rw [hse] at hok
      cases hok

/-- C8 witness: the all-zero summary over the empty store at 24 hours. -/
theorem stats_empty_window_all_zero_witness :
    statsWindowMatch none (0 - 24 * msPerHour) [] = [] ∧
    getGlucoseStats 0 none 24 [] = .ok (zeroSummary 24) :=
  ⟨rfl, (stats_empty_window_all_zero 0 24 [] none).1 rfl⟩

/-- C9: every served summary with count > 0 carries percentages that are
round (bucket / count * 100), each bucket rounded independently with no
normalization; over readings 50, 100 and 190 in one window the summary is
count 3, one reading per bucket, and percentages 33 / 33 / 33. -/
theorem stats_percentages_independent :
    (∀ (now hours : ℤ) (store : Store) (uid : Option String)
        (summary : StatsSummary),
      getGlucoseStats now uid hours store = .ok summary →
      0 < summary.count →
      summary.tirLow
          = jsRound ((summary.lowReadings : ℚ) / (summary.count : ℚ) * 100) ∧
      summary.tirNormal
          = jsRound ((summary.normalReadings : ℚ) / (summary.count : ℚ) * 100) ∧
      summary.tirHigh
          = jsRound ((summary.highReadings : ℚ) / (summary.count : ℚ) * 100)) ∧
    getGlucoseStats 0 none 24 c9Store = .ok c9Summary := by
  constructor
  · intro now hours store uid summary hok hcount
    cases uid with
    | some u =>
        have hse : getGlucoseStats now (some u) hours store
            = .serverError "ReferenceError: mongoose is not defined" := rfl
        rw [hse] at hok
        cases hok
    | none =>
        have hnone : getGlucoseStats now none hours store
            = .ok (statsSummaryOf hours ((aggregateStats (statsWindowMatch none
                (now - hours * msPerHour) store)).getD zeroAggRow)) := rfl
        rw [hnone] at hok
        have hsum := StatsResult.ok.inj hok
        subst hsum
        simp only [statsSummaryOf] at hcount
        refine ⟨?_, ?_, ?_⟩ <;> simp [statsSummaryOf, hcount]
  · have hnone : getGlucoseStats 0 none 24 c9Store
        = .ok (statsSummaryOf 24 ((aggregateStats (statsWindowMatch none
            (0 - 24 * msPerHour) c9Store)).getD zeroAggRow)) := rfl
    have hmatch : statsWindowMatch none (0 - 24 * msPerHour) c9Store
        = c9Store := by decide
    rw [hnone, hmatch]
    norm_num [aggregateStats, c9Store, qSum, listMin, listMax, statsSummaryOf,
      c9Summary, jsRound, min_def, max_def]

/-- C9 witness: the general percentage law instantiated at the concrete
three-reading summary. -/
theorem stats_percentages_independent_witness :
    0 < c9Summary.count ∧
    (c9Summary.tirLow
        = jsRound ((c9Summary.lowReadings : ℚ) / (c9Summary.count : ℚ) * 100) ∧
     c9Summary.tirNormal
        = jsRound ((c9Summary.normalReadings : ℚ) / (c9Summary.count : ℚ) * 100) ∧
     c9Summary.tirHigh
        = jsRound ((c9Summary.highReadings : ℚ) / (c9Summary.count : ℚ) * 100)) :=
  ⟨by norm_num [c9Summary],
   stats_percentages_independent.1 0 24 c9Store none c9Summary
     stats_percentages_independent.2 (by norm_num [c9Summary])⟩

/-- C10: on a valid readings query the response page is the filtered set
sorted timestamp-descending and cut to the effective limit, the stats block
is computed over exactly that page, and the stats count equals the page
length, which never exceeds the effective limit. -/
theorem readings_stats_over_page
    (now : ℤ) (q : ReadingsQuery) (store : Store)
    (hval : validateReadingsQuery q = []) :
    getGlucoseReadings now q store
        = .ok ((pageOf q store).map (entryOf now))
            (pageStatsOf (pageOf q store)) ∧
    (pageStatsOf (pageOf q store)).count = (pageOf q store).length ∧
    (pageOf q store).length ≤ effLimit q := by
  refine ⟨?_, ?_, ?_⟩
  · unfold getGlucoseReadings
    rw [if_pos hval]
  · cases hp : pageOf q store <;> simp [pageStatsOf, hp]
  · unfold pageOf
    exact List.length_take_le _ _

/-- C10 witness: with limit 2 over three stored readings the served page and
its stats count are 2, not 3. -/
theorem readings_stats_over_page_witness :
    validateReadingsQuery c10Query = [] ∧
    (getGlucoseReadings 0 c10Query c9Store
        = .ok ((pageOf c10Query c9Store).map (entryOf 0))
            (pageStatsOf (pageOf c10Query c9Store)) ∧
     (pageStatsOf (pageOf c10Query c9Store)).count
        = (pageOf c10Query c9Store).length ∧
     (pageOf c10Query c9Store).length ≤ effLimit c10Query) ∧
    (pageOf c10Query c9Store).length = 2 ∧ c9Store.length = 3 :=
  ⟨by decide, readings_stats_over_page 0 c10Query c9Store (by decide),
   by decide, by decide⟩
